import Mathlib

/-!
Shallow embedding of the MaidSafe-Drive directory / file-context layer.

Source files embedded here:
  * `file_context.h` / `file_context.cc` — the `FileContext` struct;
  * `directory.h` / `directory.cc` — the `Directory` class
    (`FlushEncryptor`, `FlushChildAndDeleteEncryptor`, `Serialise`, the
    deserialising constructor, `AddNewVersion`, `Find`,
    `SortAndResetChildrenCounter`, `GetChild`, `GetMutableChild`,
    `AddChild`, `RemoveChild`, `DoScheduleForStoring`);
  * `drive.h` — `Drive::InitialiseEncryptor`, `Drive::Flush`,
    `Drive::Read`, `Drive::Write`.

Modelling conventions:
  * Filesystem names (`boost::filesystem::path` used as a child name) are
    abstracted to `Nat` with its linear order: the C++ code only compares
    names with `==` and `<`.
  * `Identity` / `DirectoryId` values are abstracted to `Nat`.
  * `std::unique_ptr<T>` fields become `Option` fields; a null pointer is
    `none`.  In particular `open_count` has C++ type
    `std::unique_ptr<std::atomic<int>>`, so it is modelled as
    `Option Int`: the outer `Option` is the pointer, the `Int` the pointee.
  * `boost::asio::steady_timer` is modelled by the number of pending
    asynchronous waits that `cancel()` would cancel (`Timer.pending`);
    `cancel()` returns that number and leaves none pending.
  * `encrypt::SelfEncryptor` is modelled by the data map it was built from
    plus an instrumentation counter of how many times `Flush()` was
    called.  Whether a particular `Flush()` / `Read()` / `Write()` call
    succeeds is a parameter of the operations that inspect the result,
    since the encryptor implementation lives outside this repository.
  * `std::condition_variable.notify_one()` is instrumented as a counter on
    the directory.
  * The storing timer armed by `DoScheduleForStoring(true)` is modelled by
    its observable effect on the directory: `store_state` becomes
    `kPending`.
  * Machine integers: `uint32_t` / `uint64_t` values are `Nat` with
    explicit `% 2 ^ 32` / `% 2 ^ 64` where C++ overflow can occur;
    `off_t` (a signed 64-bit integer) is `Int`, and the C++ cast
    `static_cast<off_t>(u)` from `uint64_t` is `int64OfUInt64`.
-/

namespace MaidsafeDrive

/-- `StructuredDataVersions::VersionName`: an index plus a version id.
A default-constructed (`empty`) `VersionName` carries no id. -/
structure VersionName where
  index : Nat
  id : Option Nat
deriving DecidableEq

/-- The default-constructed `StructuredDataVersions::VersionName()`. -/
def VersionName.empty : VersionName := ⟨0, none⟩

/-- Model of `encrypt::SelfEncryptor`: the data map it was constructed
from, plus a counter of `Flush()` calls (instrumentation). -/
structure SelfEncryptor where
  data_map : Nat
  flush_count : Nat
deriving DecidableEq

/-- A freshly constructed `SelfEncryptor` (the C++ constructor also
receives the three chunk-store hooks, which are ambient here). -/
def SelfEncryptor.fresh (dm : Nat) : SelfEncryptor := ⟨dm, 0⟩

/-- Model of `boost::asio::steady_timer`: the number of pending
asynchronous waits (what `cancel()` returns and cancels). -/
structure Timer where
  pending : Nat
deriving DecidableEq

/-- The fields of `MetaData` that the embedded code reads or writes:
the child's name, an optional directory id (present iff the context
represents a directory), the data map, and the POSIX attributes used by
`Drive::Write` (`st_size`, `st_blocks`, both signed 64-bit). -/
structure MetaData where
  name : Nat
  directory_id : Option Nat
  data_map : Nat
  st_size : Int
  st_blocks : Int
deriving DecidableEq

/-- `FileContext` from `file_context.h`.  `open_count` has C++ type
`std::unique_ptr<std::atomic<int>>`: the `Option` is the smart pointer,
the `Int` the pointed-to count.  The `parent` back-pointer is not a
field here; operations that follow it take the parent explicitly. -/
structure FileContext where
  meta_data : MetaData
  self_encryptor : Option SelfEncryptor
  timer : Option Timer
  open_count : Option Int
  flushed : Bool
deriving DecidableEq

/-- `FileContext(MetaData, Directory*)` constructor: null encryptor and
timer, `open_count` freshly allocated holding 0, not flushed. -/
def FileContext.ofMetaData (m : MetaData) : FileContext :=
  { meta_data := m, self_encryptor := none, timer := none,
    open_count := some 0, flushed := false }

/-- `Directory::StoreState`. -/
inductive StoreState where
  | kPending
  | kOngoing
  | kComplete
deriving DecidableEq

/-- `Directory` from `directory.h`.  `cond_notifications` instruments
`cond_var_.notify_one()`; the store timer is represented by its
observable effect on `store_state`. -/
structure Directory where
  parent_id : Nat
  directory_id : Nat
  versions : List VersionName
  max_versions : Nat
  children : List FileContext
  children_count_position : Nat
  store_state : StoreState
  cond_notifications : Nat
deriving DecidableEq

/-- `DriveErrors` raised by the directory child operations. -/
inductive DriveError where
  | no_such_file
  | file_exists
deriving DecidableEq

/-- `CommonErrors` raised by the `Drive` operations embedded here. -/
inductive CommonError where
  | unknown
  | parsing_error
deriving DecidableEq

/-- The anonymous-namespace helper `FlushEncryptor(FileContext*)` in
`directory.cc`: calls `self_encryptor->Flush()` (result discarded), then
`if (file_context->open_count == 0)` resets the encryptor, then sets
`flushed = true`.  NOTE: the C++ condition compares the
`std::unique_ptr<std::atomic<int>>` itself against the null pointer
constant `0`, not the pointed-to count, so it is `open_count = none`
here. -/
def FlushEncryptor (fc : FileContext) : FileContext :=
  let fc := { fc with
    self_encryptor :=
      fc.self_encryptor.map (fun (e : SelfEncryptor) => { e with flush_count := e.flush_count + 1 }) }
  let fc := if fc.open_count = none then { fc with self_encryptor := none } else fc
  { fc with flushed := true }

/-- `Directory::FlushChildAndDeleteEncryptor(FileContext* child)`:
under the directory lock, if the child still owns an encryptor, call
`FlushEncryptor` on it.  Only the child is mutated, so the embedding
maps the child's state. -/
def Directory.FlushChildAndDeleteEncryptor (child : FileContext) : FileContext :=
  if child.self_encryptor.isSome then FlushEncryptor child else child

/-- `Directory::AddNewVersion(version_id)` from `directory.cc`: sets
`store_state_ = kComplete`; if `versions_` is empty appends
`VersionName(0, version_id)` and returns
`(directory_id_, VersionName(), versions_[0])`, otherwise prepends
`VersionName(front.index + 1, version_id)` and returns
`(directory_id_, old front, new front)`; finally `notify_one()`. -/
def Directory.AddNewVersion (d : Directory) (version_id : Nat) :
    Directory × Nat × VersionName × VersionName :=
  match d.versions with
  | [] =>
      let v : VersionName := ⟨0, some version_id⟩
      ({ d with store_state := StoreState.kComplete, versions := [v],
                cond_notifications := d.cond_notifications + 1 },
       d.directory_id, VersionName.empty, v)
  | front :: rest =>
      let v : VersionName := ⟨front.index + 1, some version_id⟩
      ({ d with store_state := StoreState.kComplete, versions := v :: front :: rest,
                cond_notifications := d.cond_notifications + 1 },
       d.directory_id, front, v)

/-- `std::find_if` over the children comparing `meta_data.name` with the
sought name (`Directory::Find`). -/
def Directory.FindChild (d : Directory) (name : Nat) : Option FileContext :=
  d.children.find? (fun c => c.meta_data.name == name)

/-- Insert one child into an already-ordered list, by
`operator<(FileContext, FileContext)`, i.e. `meta_data.name <`. -/
def insertChild (c : FileContext) : List FileContext → List FileContext
  | [] => [c]
  | d :: ds => if c.meta_data.name < d.meta_data.name then c :: d :: ds else d :: insertChild c ds

/-- The sorting performed by `Directory::SortAndResetChildrenCounter`:
`std::sort` on the children with comparator `meta_data.name <`
(realised as insertion sort, which meets `std::sort`'s postcondition). -/
def sortChildren : List FileContext → List FileContext
  | [] => []
  | c :: cs => insertChild c (sortChildren cs)

/-- `Directory::DoScheduleForStoring(true)` (the default), as called by
`ScheduleForStoring`, `AddChild`, `RemoveChild`: re-arms the store timer
and sets `store_state_ = kPending`. -/
def Directory.ScheduleForStoring (d : Directory) : Directory :=
  { d with store_state := StoreState.kPending }

/-- `Directory::GetChild(name)`: throws `DriveErrors::no_such_file` when
`Find` reaches the end, otherwise returns the child. -/
def Directory.GetChild (d : Directory) (name : Nat) : Except DriveError FileContext :=
  match d.FindChild name with
  | none => Except.error DriveError.no_such_file
  | some c => Except.ok c

/-- `Directory::GetMutableChild(name)`: same lookup and error behaviour
as `GetChild`. -/
def Directory.GetMutableChild (d : Directory) (name : Nat) : Except DriveError FileContext :=
  match d.FindChild name with
  | none => Except.error DriveError.no_such_file
  | some c => Except.ok c

/-- Erase the first child with the given name (`children_.erase(itr)`). -/
def eraseChild (name : Nat) : List FileContext → List FileContext
  | [] => []
  | c :: cs => if c.meta_data.name == name then cs else c :: eraseChild name cs

/-- `Directory::AddChild(child)`: throws `DriveErrors::file_exists` when
a child with the same name is present; otherwise sets the child's parent
pointer (not modelled), appends it, sorts and resets the counter, and
schedules a deferred store. -/
def Directory.AddChild (d : Directory) (child : FileContext) : Except DriveError Directory :=
  match d.FindChild child.meta_data.name with
  | some _ => Except.error DriveError.file_exists
  | none =>
      Except.ok (Directory.ScheduleForStoring
        { d with children := sortChildren (d.children ++ [child]),
                 children_count_position := 0 })

/-- `Directory::RemoveChild(name)`: throws `DriveErrors::no_such_file`
when absent; otherwise removes the child, sorts and resets the counter,
schedules a deferred store, and returns the removed context. -/
def Directory.RemoveChild (d : Directory) (name : Nat) :
    Except DriveError (Directory × FileContext) :=
  match d.FindChild name with
  | none => Except.error DriveError.no_such_file
  | some c =>
      Except.ok (Directory.ScheduleForStoring
        { d with children := sortChildren (eraseChild name d.children),
                 children_count_position := 0 }, c)

/-- The serialised `protobuf::Directory`: `Directory::Serialise` writes
exactly `directory_id_`, `max_versions_.data` and one proto child per
child's `meta_data` — and nothing else (in particular not
`parent_id_`). -/
structure ProtoDirectory where
  directory_id : Nat
  max_versions : Nat
  children : List MetaData
deriving DecidableEq

/-- The per-child side effect of `Directory::Serialise`: when the child
owns an encryptor, cancel its teardown timer, run `FlushEncryptor`, and
clear `flushed` again. -/
def FileContext.serialiseFlush (c : FileContext) : FileContext :=
  if c.self_encryptor.isSome then
    let c := { c with timer := c.timer.map (fun (_ : Timer) => ⟨0⟩) }
    let c := FlushEncryptor c
    { c with flushed := false }
  else c

/-- `Directory::Serialise()`: builds the protobuf from `directory_id_`,
`max_versions_` and the children's `meta_data` (in their current,
sorted, order), flushes each child that owns an encryptor, and sets
`store_state_ = kOngoing`.  Returns the proto and the mutated
directory. -/
def Directory.Serialise (d : Directory) : ProtoDirectory × Directory :=
  ({ directory_id := d.directory_id, max_versions := d.max_versions,
     children := d.children.map (fun c => c.meta_data) },
   { d with children := d.children.map FileContext.serialiseFlush,
            store_state := StoreState.kOngoing })

/-- The deserialising `Directory` constructor: takes the parent id, the
serialised blob and the version list from the caller; parses the blob
(here already structured, the wire format being opaque), takes
`directory_id_` and `max_versions_` from it, rebuilds each child as
`FileContext(MetaData(proto child), this)` and finally
`SortAndResetChildrenCounter()`.  `store_state_` starts `kComplete`. -/
def Directory.deserialise (parent_id : Nat) (proto : ProtoDirectory)
    (versions : List VersionName) : Directory :=
  { parent_id := parent_id, directory_id := proto.directory_id,
    versions := versions, max_versions := proto.max_versions,
    children := sortChildren (proto.children.map FileContext.ofMetaData),
    children_count_position := 0, store_state := StoreState.kComplete,
    cond_notifications := 0 }

/-- `Drive::InitialiseEncryptor(file_context)` from `drive.h`: if there
is no timer, create one (with no pending wait) and fall through; if
there is one and `timer->cancel()` returns more than 0, the pending
teardown is defused and the existing encryptor is kept (early return);
otherwise construct a fresh `SelfEncryptor` from `*meta_data.data_map`
and the chunk-store hooks. -/
def Drive.InitialiseEncryptor (fc : FileContext) : FileContext :=
  match fc.timer with
  | none =>
      { fc with timer := some ⟨0⟩,
                self_encryptor := some (SelfEncryptor.fresh fc.meta_data.data_map) }
  | some t =>
      if t.pending > 0 then
        { fc with timer := some ⟨0⟩ }
      else
        { fc with timer := some ⟨0⟩,
                  self_encryptor := some (SelfEncryptor.fresh fc.meta_data.data_map) }

/-- `Drive::Flush(relative_path)` acting on the looked-up context:
`if (self_encryptor && !self_encryptor->Flush()) throw unknown`.
`flushResult` is what `self_encryptor->Flush()` returns when it is
called (the encryptor implementation is outside this repository). -/
def Drive.Flush (fc : FileContext) (flushResult : Bool) : Except CommonError FileContext :=
  match fc.self_encryptor with
  | none => Except.ok fc
  | some e =>
      if flushResult then
        Except.ok { fc with
          self_encryptor := some { e with flush_count := e.flush_count + 1 } }
      else Except.error CommonError.unknown

/-- `Drive::Read(relative_path, data, size, offset)` acting on the
looked-up context, given `encSize = self_encryptor->size()` (a
`uint64_t`).  `readOk` is what `self_encryptor->Read(...)` returns.
`size` is `uint32_t`, `offset` is `uint64_t`; `offset + size` is a
`uint64_t` addition and the final `static_cast<uint32_t>` truncates. -/
def Drive.Read (encSize size offset : Nat) (readOk : Bool) : Except CommonError Nat :=
  if !readOk then Except.error CommonError.unknown
  else if (offset + size) % 2 ^ 64 > encSize then
    if offset > encSize then Except.ok 0
    else Except.ok ((encSize - offset) % 2 ^ 32)
  else Except.ok size

/-- `static_cast<off_t>(u)` for a `uint64_t` value `u`: two's-complement
reinterpretation into a signed 64-bit integer. -/
def int64OfUInt64 (u : Nat) : Int :=
  if u % 2 ^ 64 < 2 ^ 63 then Int.ofNat (u % 2 ^ 64) else Int.ofNat (u % 2 ^ 64) - 2 ^ 64

/-- `Drive::Write(relative_path, data, size, offset)` acting on the
looked-up context and its parent directory.  On encryptor success
(`writeOk`): `st_size = max(static_cast<off_t>(offset + size), st_size)`,
`st_blocks = st_size / 512` (C++ signed division truncates), the parent's
`ScheduleForStoring()` runs, and `size` is returned. -/
def Drive.Write (parent : Directory) (fc : FileContext) (size offset : Nat)
    (writeOk : Bool) : Except CommonError (FileContext × Directory × Nat) :=
  if !writeOk then Except.error CommonError.unknown
  else
    let newSize : Int := max (int64OfUInt64 (offset + size)) fc.meta_data.st_size
    Except.ok
      ({ fc with meta_data := { fc.meta_data with
           st_size := newSize, st_blocks := Int.tdiv newSize 512 } },
       Directory.ScheduleForStoring parent, size)

/-- The children invariant maintained by `SortAndResetChildrenCounter`:
strictly ascending `meta_data.name` (strict, because `AddChild` rejects
duplicate names). -/
def childrenSortedBool : List FileContext → Bool
  | [] => true
  | [_] => true
  | a :: b :: rest =>
      decide (a.meta_data.name < b.meta_data.name) && childrenSortedBool (b :: rest)

/-! ### Helper lemmas -/

deriving instance DecidableEq for Except

theorem ofMetaData_meta_data (m : MetaData) :
    (FileContext.ofMetaData m).meta_data = m := rfl

theorem insertChild_of_lt (c d : FileContext) (ds : List FileContext)
    (h : c.meta_data.name < d.meta_data.name) : insertChild c (d :: ds) = c :: d :: ds := by
  simp [insertChild, h]

theorem sortChildren_eq_self :
    ∀ l : List FileContext, childrenSortedBool l = true → sortChildren l = l
  | [], _ => rfl
  | [c], _ => by simp [sortChildren, insertChild]
  | a :: b :: rest, h => by
      have hab : a.meta_data.name < b.meta_data.name := by
        have := h
        simp only [childrenSortedBool, Bool.and_eq_true, decide_eq_true_eq] at this
        exact this.1
      have ht : childrenSortedBool (b :: rest) = true := by
        have := h
        simp only [childrenSortedBool, Bool.and_eq_true, decide_eq_true_eq] at this
        exact this.2
      calc sortChildren (a :: b :: rest)
          = insertChild a (sortChildren (b :: rest)) := rfl
        _ = insertChild a (b :: rest) := by rw [sortChildren_eq_self (b :: rest) ht]
        _ = a :: b :: rest := insertChild_of_lt a b rest hab

theorem childrenSortedBool_map_ofMetaData :
    ∀ l : List FileContext,
      childrenSortedBool
          ((l.map (fun c => c.meta_data)).map FileContext.ofMetaData) =
        childrenSortedBool l
  | [] => rfl
  | [_] => rfl
  | a :: b :: rest => by
      have ih := childrenSortedBool_map_ofMetaData (b :: rest)
      simp only [List.map_cons] at ih ⊢
      simp only [childrenSortedBool, ofMetaData_meta_data, ih]

theorem findChild_eq_none_iff (d : Directory) (name : Nat) :
    d.FindChild name = none ↔ ∀ c ∈ d.children, c.meta_data.name ≠ name := by
  simp [Directory.FindChild, List.find?_eq_none]

/-! ### Concrete states used as failing inputs and witnesses -/

/-- A plain file `MetaData` with the given name. -/
def mdat (n : Nat) : MetaData :=
  { name := n, directory_id := none, data_map := 0, st_size := 0, st_blocks := 0 }

/-- An empty directory whose `max_versions` is 1. -/
def baseDir : Directory :=
  { parent_id := 0, directory_id := 1, versions := [], max_versions := 1,
    children := [], children_count_position := 0,
    store_state := StoreState.kComplete, cond_notifications := 0 }

/-- A file context holding a live encryptor whose open count is 0
(the count pointer is allocated and points at the value 0). -/
def c1Child : FileContext :=
  { meta_data := mdat 0, self_encryptor := some ⟨0, 0⟩, timer := some ⟨0⟩,
    open_count := some 0, flushed := false }

/-- A file context with a live encryptor and an armed teardown timer
with one pending wait. -/
def c3Fc : FileContext :=
  { meta_data := { mdat 0 with data_map := 7 }, self_encryptor := some ⟨7, 3⟩,
    timer := some ⟨1⟩, open_count := some 1, flushed := false }

/-- A directory with two children in sorted name order. -/
def c4Dir : Directory :=
  { parent_id := 4, directory_id := 2, versions := [⟨0, some 11⟩], max_versions := 100,
    children := [FileContext.ofMetaData (mdat 1), FileContext.ofMetaData (mdat 2)],
    children_count_position := 0, store_state := StoreState.kComplete,
    cond_notifications := 0 }

/-- A file context whose current `st_size` is 5. -/
def c6Fc : FileContext :=
  { meta_data := { mdat 0 with st_size := 5 }, self_encryptor := some ⟨0, 0⟩,
    timer := some ⟨0⟩, open_count := some 1, flushed := false }

/-- A directory with one child named 3. -/
def c9Dir : Directory :=
  { parent_id := 0, directory_id := 3, versions := [], max_versions := 100,
    children := [FileContext.ofMetaData (mdat 3)], children_count_position := 0,
    store_state := StoreState.kComplete, cond_notifications := 0 }

/-- A file context with no live encryptor. -/
def c10Fc : FileContext :=
  { meta_data := mdat 8, self_encryptor := none, timer := none,
    open_count := some 0, flushed := true }

/-! ### Claims -/

/-- Claim C1 (code bug): the claim says `FlushChildAndDeleteEncryptor`
drops the encryptor of a child whose open count is 0, and the header
comment on the function agrees ("resets child's self_encryptor"); but
`FlushEncryptor` compares the `open_count` smart pointer itself against
null, so on `c1Child` (open count pointer allocated, value 0) the
encryptor is flushed yet remains present. -/
theorem flushChild_keeps_encryptor_at_zero_open_count_c1 :
    c1Child.open_count = some 0 ∧
    (Directory.FlushChildAndDeleteEncryptor c1Child).self_encryptor = some ⟨0, 1⟩ ∧
    (Directory.FlushChildAndDeleteEncryptor c1Child).self_encryptor ≠ none := by decide

/-- Claim C2 counterexample: starting from an empty directory with
`max_versions = 1`, two `AddNewVersion` calls leave `versions` of
length 2 — the claimed bound `length ≤ max_versions` fails and no
eviction happens. -/
theorem addNewVersion_exceeds_max_versions_c2 :
    (((baseDir.AddNewVersion 5).1).AddNewVersion 6).1.versions.length = 2 ∧
    (((baseDir.AddNewVersion 5).1).AddNewVersion 6).1.max_versions = 1 := by decide

/-- Claim C2 (amended): `AddNewVersion` always grows the versions list
by exactly one; it never evicts, so the length is not bounded by
`max_versions`. -/
theorem addNewVersion_grows_by_one_c2 (d : Directory) (v : Nat) :
    ((d.AddNewVersion v).1).versions.length = d.versions.length + 1 := by
  rcases hv : d.versions with _ | ⟨f, rest⟩ <;>
    simp [Directory.AddNewVersion, hv]

/-- Claim C3: if a teardown timer is armed and cancelling it returns at
least 1, `InitialiseEncryptor` keeps the existing encryptor; if the
cancellation returns 0, or no timer existed, a fresh encryptor is
constructed from the file's data map. -/
theorem initialiseEncryptor_cancel_c3 (fc : FileContext) :
    (∀ t : Timer, fc.timer = some t → 1 ≤ t.pending →
        (Drive.InitialiseEncryptor fc).self_encryptor = fc.self_encryptor) ∧
    (∀ t : Timer, fc.timer = some t → t.pending = 0 →
        (Drive.InitialiseEncryptor fc).self_encryptor =
          some (SelfEncryptor.fresh fc.meta_data.data_map)) ∧
    (fc.timer = none →
        (Drive.InitialiseEncryptor fc).self_encryptor =
          some (SelfEncryptor.fresh fc.meta_data.data_map)) := by
  refine ⟨fun t ht hp => ?_, fun t ht hp => ?_, fun ht => ?_⟩
  · have hpos : t.pending > 0 := hp
    simp [Drive.InitialiseEncryptor, ht, hpos]
  · simp [Drive.InitialiseEncryptor, ht, hp]
  · simp [Drive.InitialiseEncryptor, ht]

/-- Claim C3 witness: on `c3Fc` (timer armed, one pending wait) the
encryptor is kept unchanged. -/
theorem initialiseEncryptor_cancel_c3_witness :
    (Drive.InitialiseEncryptor c3Fc).self_encryptor = c3Fc.self_encryptor :=
  (initialiseEncryptor_cancel_c3 c3Fc).1 ⟨1⟩ rfl (by decide)

/-- Claim C4: deserialising the output of `Serialise` reproduces the
same `directory_id`, the same `max_versions`, and children with
identical metadata in identical order, provided the children are in
the sorted order the class maintains. -/
theorem serialise_deserialise_roundtrip_c4 (d : Directory) (p : Nat)
    (vs : List VersionName) (h : childrenSortedBool d.children = true) :
    (Directory.deserialise p (d.Serialise).1 vs).directory_id = d.directory_id ∧
    (Directory.deserialise p (d.Serialise).1 vs).max_versions = d.max_versions ∧
    (Directory.deserialise p (d.Serialise).1 vs).children.map (fun c => c.meta_data) =
      d.children.map (fun c => c.meta_data) := by
  refine ⟨rfl, rfl, ?_⟩
  show (sortChildren
      ((d.children.map (fun c => c.meta_data)).map FileContext.ofMetaData)).map
        (fun c => c.meta_data) = _
  rw [sortChildren_eq_self _
    (by rw [childrenSortedBool_map_ofMetaData]; exact h)]
  simp [FileContext.ofMetaData, List.map_map, Function.comp]

/-- Claim C4 witness: round trip on the concrete two-child directory
`c4Dir`. -/
theorem serialise_deserialise_roundtrip_c4_witness :
    (Directory.deserialise 9 (c4Dir.Serialise).1 []).children.map (fun c => c.meta_data) =
      c4Dir.children.map (fun c => c.meta_data) :=
  (serialise_deserialise_roundtrip_c4 c4Dir 9 [] (by decide)).2.2

/-- Claim C5 counterexample: the `uint64_t` addition `offset + size`
wraps.  With `encryptor.size() = 2^64 - 1`, `offset = 2^64 - 2` and
`size = 3`, the read is in-range (`offset < size()`), the claim demands
`min(size, size() - offset) = 1`, but the code returns 3. -/
theorem read_uint64_wrap_c5 :
    Drive.Read (2 ^ 64 - 1) 3 (2 ^ 64 - 2) true = Except.ok 3 ∧
    2 ^ 64 - 2 < 2 ^ 64 - 1 ∧
    min 3 ((2 ^ 64 - 1) - (2 ^ 64 - 2)) = 1 ∧ (3 : Nat) ≠ 1 := by decide

/-- Claim C5 (amended): when the `uint64_t` addition `offset + size`
does not wrap (and `size` fits its `uint32_t` type), a successful read
returns `min(size, encryptor.size() - offset)` for `offset <
encryptor.size()` and 0 for `offset ≥ encryptor.size()`. -/
theorem read_count_c5 (encSize size offset : Nat) (hs : size < 2 ^ 32)
    (hno : offset + size < 2 ^ 64) :
    Drive.Read encSize size offset true =
      Except.ok (if encSize ≤ offset then 0 else min size (encSize - offset)) := by
  have hmod : (offset + size) % 2 ^ 64 = offset + size := Nat.mod_eq_of_lt hno
  simp only [Drive.Read, hmod, Bool.not_true, Bool.false_eq_true, if_false]
  split_ifs with h1 h2 h3 h4 h5 <;>
    exact congrArg Except.ok (by omega)

/-- Claim C5 witness: reading 4 bytes at offset 8 of a 10-byte file
returns 2. -/
theorem read_count_c5_witness :
    Drive.Read 10 4 8 true = Except.ok (if 10 ≤ 8 then 0 else min 4 (10 - 8)) :=
  read_count_c5 10 4 8 (by decide) (by decide)

/-- Claim C6 counterexample: the cast `static_cast<off_t>(offset + size)`
reinterprets values at or above `2^63` as negative, so with a previous
size of 5, `offset = 2^63` and `size = 1` the stored size stays 5 while
the claim demands `max(5, 2^63 + 1) = 2^63 + 1`. -/
theorem write_off_t_overflow_c6 :
    Drive.Write baseDir c6Fc 1 (2 ^ 63) true =
      Except.ok (c6Fc, Directory.ScheduleForStoring baseDir, 1) ∧
    c6Fc.meta_data.st_size = 5 ∧
    max (5 : Int) (2 ^ 63 + 1) ≠ 5 := by decide

/-- Claim C6 (amended): when `offset + size < 2^63` (the cast to the
signed 64-bit `off_t` is value-preserving), a successful write sets
`st_size` to `max(previous, offset + size)` (and `st_blocks`
accordingly), invokes the parent's `ScheduleForStoring`, and returns
`size`. -/
theorem write_updates_size_c6 (parent : Directory) (fc : FileContext)
    (size offset : Nat) (h : offset + size < 2 ^ 63) :
    Drive.Write parent fc size offset true =
      Except.ok ({ fc with meta_data := { fc.meta_data with
          st_size := max ((offset : Int) + size) fc.meta_data.st_size,
          st_blocks := Int.tdiv (max ((offset : Int) + size) fc.meta_data.st_size) 512 } },
        Directory.ScheduleForStoring parent, size) := by
  have h64 : offset + size < 2 ^ 64 := by omega
  have hmod : (offset + size) % 2 ^ 64 = offset + size := Nat.mod_eq_of_lt h64
  have hcast : int64OfUInt64 (offset + size) = (offset : Int) + size := by
    unfold int64OfUInt64
    rw [hmod, if_pos h]
    exact_mod_cast rfl
  simp [Drive.Write, hcast]

/-- Claim C6 witness: writing 4 bytes at offset 10 over a file of size
5 grows the size to 14. -/
theorem write_updates_size_c6_witness :
    Drive.Write baseDir c6Fc 4 10 true =
      Except.ok ({ c6Fc with meta_data := { c6Fc.meta_data with
          st_size := max ((10 : Int) + 4) c6Fc.meta_data.st_size,
          st_blocks := Int.tdiv (max ((10 : Int) + 4) c6Fc.meta_data.st_size) 512 } },
        Directory.ScheduleForStoring baseDir, 4) :=
  write_updates_size_c6 baseDir c6Fc 4 10 (by decide)

/-- Claim C7: `AddNewVersion` prepends a version whose index is the
previous head's index + 1 (0 when the list was empty), sets the store
state to complete, notifies the condition-variable waiter, and returns
the directory id, the previous head (or an empty `VersionName`), and
the new head. -/
theorem addNewVersion_result_c7 (d : Directory) (v : Nat) :
    ((d.AddNewVersion v).1).store_state = StoreState.kComplete ∧
    ((d.AddNewVersion v).1).cond_notifications = d.cond_notifications + 1 ∧
    (d.AddNewVersion v).2.1 = d.directory_id ∧
    (d.AddNewVersion v).2.2.1 =
      (match d.versions with | [] => VersionName.empty | f :: _ => f) ∧
    (d.AddNewVersion v).2.2.2 =
      ⟨(match d.versions with | [] => 0 | f :: _ => f.index + 1), some v⟩ ∧
    ((d.AddNewVersion v).1).versions = (d.AddNewVersion v).2.2.2 :: d.versions := by
  rcases hv : d.versions with _ | ⟨f, rest⟩ <;>
    simp [Directory.AddNewVersion, hv]

/-- Claim C8: `Serialise` writes `directory_id`, `max_versions` and the
children's metadata only; two directory states differing only in
`parent_id` serialise identically. -/
theorem serialise_ignores_parent_id_c8 (d : Directory) (p : Nat) :
    (({ d with parent_id := p } : Directory).Serialise).1 = (d.Serialise).1 := rfl

/-- Claim C9: `GetChild`, `GetMutableChild` and `RemoveChild` raise
`no_such_file` exactly when no child with the name exists, and
`AddChild` raises `file_exists` exactly when a child with the same name
is present (the error cases returning no mutated state). -/
theorem childOps_errors_c9 (d : Directory) (name : Nat) (child : FileContext) :
    (d.GetChild name = Except.error DriveError.no_such_file ↔
       ∀ c ∈ d.children, c.meta_data.name ≠ name) ∧
    (d.GetMutableChild name = Except.error DriveError.no_such_file ↔
       ∀ c ∈ d.children, c.meta_data.name ≠ name) ∧
    (d.RemoveChild name = Except.error DriveError.no_such_file ↔
       ∀ c ∈ d.children, c.meta_data.name ≠ name) ∧
    (d.AddChild child = Except.error DriveError.file_exists ↔
       ∃ c ∈ d.children, c.meta_data.name = child.meta_data.name) := by
  have key : ∀ c, d.FindChild name = some c →
      c ∈ d.children ∧ c.meta_data.name = name := by
    intro c hc
    refine ⟨List.mem_of_find?_eq_some hc, ?_⟩
    have := List.find?_some hc
    simpa using this
  refine ⟨?_, ?_, ?_, ?_⟩
  · cases hf : d.FindChild name with
    | none => simpa [Directory.GetChild, hf] using (findChild_eq_none_iff d name).mp hf
    | some c =>
        have hne : ¬ (∀ x ∈ d.children, x.meta_data.name ≠ name) :=
          fun hall => absurd ((key c hf).2) (hall c (key c hf).1)
        simp [Directory.GetChild, hf, hne]
  · cases hf : d.FindChild name with
    | none =>
        simpa [Directory.GetMutableChild, hf] using (findChild_eq_none_iff d name).mp hf
    | some c =>
        have hne : ¬ (∀ x ∈ d.children, x.meta_data.name ≠ name) :=
          fun hall => absurd ((key c hf).2) (hall c (key c hf).1)
        simp [Directory.GetMutableChild, hf, hne]
  · cases hf : d.FindChild name with
    | none => simpa [Directory.RemoveChild, hf] using (findChild_eq_none_iff d name).mp hf
    | some c =>
        have hne : ¬ (∀ x ∈ d.children, x.meta_data.name ≠ name) :=
          fun hall => absurd ((key c hf).2) (hall c (key c hf).1)
        simp [Directory.RemoveChild, hf, hne]
  · have key2 : ∀ c, d.FindChild child.meta_data.name = some c →
        c ∈ d.children ∧ c.meta_data.name = child.meta_data.name := by
      intro c hc
      refine ⟨List.mem_of_find?_eq_some hc, ?_⟩
      have := List.find?_some hc
      simpa using this
    cases hf : d.FindChild child.meta_data.name with
    | none =>
        have hnone := (findChild_eq_none_iff d child.meta_data.name).mp hf
        have hnex : ¬ ∃ c ∈ d.children, c.meta_data.name = child.meta_data.name :=
          fun ⟨c, hm, he⟩ => absurd he (hnone c hm)
        simp [Directory.AddChild, hf, hnex]
    | some c =>
        have hex : ∃ x ∈ d.children, x.meta_data.name = child.meta_data.name :=
          ⟨c, (key2 c hf).1, (key2 c hf).2⟩
        simp [Directory.AddChild, hf, hex]

/-- Claim C9 witness: the characterisation instantiated on the
one-child directory `c9Dir`. -/
theorem childOps_errors_c9_witness :
    (c9Dir.GetChild 3 = Except.error DriveError.no_such_file ↔
       ∀ c ∈ c9Dir.children, c.meta_data.name ≠ 3) ∧
    (c9Dir.GetMutableChild 3 = Except.error DriveError.no_such_file ↔
       ∀ c ∈ c9Dir.children, c.meta_data.name ≠ 3) ∧
    (c9Dir.RemoveChild 3 = Except.error DriveError.no_such_file ↔
       ∀ c ∈ c9Dir.children, c.meta_data.name ≠ 3) ∧
    (c9Dir.AddChild (FileContext.ofMetaData (mdat 3)) = Except.error DriveError.file_exists ↔
       ∃ c ∈ c9Dir.children, c.meta_data.name = (FileContext.ofMetaData (mdat 3)).meta_data.name) :=
  childOps_errors_c9 c9Dir 3 (FileContext.ofMetaData (mdat 3))

/-- Claim C10: `Drive::Flush` on a context without a live encryptor
returns normally and attempts no codec flush; it raises `unknown`
exactly when an encryptor is present and its `Flush()` returns
false. -/
theorem flush_without_encryptor_c10 (fc : FileContext) (flushResult : Bool) :
    (fc.self_encryptor = none → Drive.Flush fc flushResult = Except.ok fc) ∧
    (Drive.Flush fc flushResult = Except.error CommonError.unknown ↔
       fc.self_encryptor.isSome = true ∧ flushResult = false) := by
  cases he : fc.self_encryptor with
  | none => simp [Drive.Flush, he]
  | some e => cases flushResult <;> simp [Drive.Flush, he]

/-- Claim C10 witness: flushing `c10Fc` (no encryptor) succeeds and
leaves the context unchanged. -/
theorem flush_without_encryptor_c10_witness :
    Drive.Flush c10Fc true = Except.ok c10Fc :=
  (flush_without_encryptor_c10 c10Fc true).1 rfl

end MaidsafeDrive
